import Mathlib

/-!
Shallow embedding of `src/storage_utils.py` (class `AzureStorageManager`)
from the career-app repository, together with theorems settling the
specification claims about the storage abstraction layer.

Modelling conventions:
* Byte sequences are `List Nat`.
* The remote blob store is an association list from `(container, blob)`
  pairs to contents; the local filesystem is an association list from
  path strings to contents plus a list of existing directories.
* Python exceptions are modelled with `Except PyError`; operations that
  catch all exceptions are total.
* Remote SDK calls and local `open` calls can fail nondeterministically
  in the real system; that nondeterminism is resolved by explicit fault
  flags passed to each operation (`remoteFault` = the remote SDK call in
  the corresponding `try` block raises; `localFault` = the local file
  `open`/`read` raises an `OSError` other than `FileNotFoundError`).
  A local `open` for writing raises `FileNotFoundError` exactly when the
  target directory does not exist, which is tracked in the state.
-/

/-- Byte sequences (`bytes` in Python). -/
abbrev Bytes := List Nat

/-- Model of `os.path.join(folder, filename)` for POSIX paths: an absolute
second component discards the first; otherwise a single separator is placed
between the components unless the first already ends with one (or is
empty). -/
def osPathJoin (folder filename : String) : String :=
  if filename.data.head? = some '/' then filename
  else if folder = "" ∨ folder.data.getLast? = some '/' then folder ++ filename
  else folder ++ "/" ++ filename

/-- Exceptions that the modelled code can raise or observe. -/
inductive PyError where
  /-- Azure `ResourceNotFoundError` (blob absent on download/delete). -/
  | resourceNotFound
  /-- Any injected remote SDK failure (network, auth, service error). -/
  | remoteError
  /-- Local `FileNotFoundError` (missing file on read, missing directory on write). -/
  | fileNotFoundError
  /-- Any other local `OSError` (permission denied, disk fault, ...). -/
  | osError
deriving Repr, DecidableEq

/-- Look up the value stored under a key in an association list. -/
def lookupEntry {α β : Type} [DecidableEq α] (k : α) : List (α × β) → Option β
  | [] => none
  | (k', v) :: rest => if k' = k then some v else lookupEntry k rest

/-- Overwrite the value stored under a key in an association list. -/
def setEntry {α β : Type} [DecidableEq α] (k : α) (v : β) (l : List (α × β)) :
    List (α × β) :=
  (k, v) :: l.filter (fun p => decide (p.1 ≠ k))

/-- Remove a key from an association list. -/
def removeEntry {α β : Type} [DecidableEq α] (k : α) (l : List (α × β)) :
    List (α × β) :=
  l.filter (fun p => decide (p.1 ≠ k))

/-- The remote blob store: containers and blobs keyed by `(container, blob)`. -/
structure RemoteStore where
  containers : List String
  blobs : List ((String × String) × Bytes)
deriving Repr, DecidableEq

/-- One iteration of the `_ensure_containers` loop: create the container if
absent; an exception of this iteration (membership in `faults`) is caught and
swallowed, leaving the store unchanged. -/
def RemoteStore.ensureContainer (r : RemoteStore) (faults : List String)
    (c : String) : RemoteStore :=
  if c ∈ faults then r
  else if c ∈ r.containers then r
  else { r with containers := c :: r.containers }

/-- The local filesystem: existing directories and files keyed by path. -/
structure LocalFS where
  dirs : List String
  files : List (String × Bytes)
deriving Repr, DecidableEq

/-- Model of `os.makedirs(d, exist_ok=True)`. -/
def LocalFS.makedirs (fs : LocalFS) (d : String) : LocalFS :=
  if d ∈ fs.dirs then fs else { fs with dirs := d :: fs.dirs }

/-- State of an `AzureStorageManager` instance together with the storage
backends it talks to.  `use_azure` is the backend-selection flag set during
construction; `storage_account_name` is the configured account (used only to
shape blob URLs). -/
structure AzureStorageManager where
  use_azure : Bool
  storage_account_name : String
  remote : RemoteStore
  fs : LocalFS
deriving Repr, DecidableEq

/-- The URL `blob_client.url` reported for a blob of the account. -/
def blobUrl (account folder filename : String) : String :=
  "https://" ++ account ++ ".blob.core.windows.net/" ++ folder ++ "/" ++ filename

namespace AzureStorageManager

/-- Embedding of `_ensure_local_directories`: `os.makedirs` for `uploads` and `generated`
with `exist_ok=True`. -/
def ensure_local_directories (m : AzureStorageManager) : AzureStorageManager :=
  { m with fs := (m.fs.makedirs "uploads").makedirs "generated" }

/-- Embedding of `_save_local`: compose `os.path.join(folder, filename)` and write the
bytes with `open(file_path, 'wb')`.  No directory is created here: the open
raises `FileNotFoundError` when the target directory does not exist. -/
def save_local (m : AzureStorageManager) (file_content : Bytes)
    (filename folder : String) : Except PyError (String × AzureStorageManager) :=
  let file_path := osPathJoin folder filename
  if folder ∈ m.fs.dirs then
    Except.ok (file_path,
      { m with fs := { m.fs with files := setEntry file_path file_content m.fs.files } })
  else
    Except.error PyError.fileNotFoundError

/-- Embedding of `save_file`: upload to Azure when `use_azure`, falling back to
`_save_local` on any exception of the upload; otherwise write locally.
`remoteFault` resolves whether the remote upload raises. -/
def save_file (m : AzureStorageManager) (remoteFault : Bool) (file_content : Bytes)
    (filename folder : String) : Except PyError (String × AzureStorageManager) :=
  if m.use_azure then
    if remoteFault then
      m.save_local file_content filename folder
    else
      Except.ok (blobUrl m.storage_account_name folder filename,
        { m with remote :=
          { m.remote with blobs := setEntry (folder, filename) file_content m.remote.blobs } })
  else
    m.save_local file_content filename folder

/-- Embedding of `_get_local`: open the composed path for reading; `FileNotFoundError`
is caught and turned into `None`; any other `OSError` (modelled by
`localFault`) propagates. -/
def get_local (m : AzureStorageManager) (localFault : Bool)
    (filename folder : String) : Except PyError (Option Bytes) :=
  let file_path := osPathJoin folder filename
  if localFault then
    Except.error PyError.osError
  else
    match lookupEntry file_path m.fs.files with
    | some b => Except.ok (some b)
    | none => Except.ok none

/-- Embedding of `get_file`: download from Azure when `use_azure`, falling back to
`_get_local` on any exception (including blob-not-found); otherwise read
locally.  The manager state is returned unchanged alongside the result. -/
def get_file (m : AzureStorageManager) (remoteFault localFault : Bool)
    (filename folder : String) :
    Except PyError (Option Bytes × AzureStorageManager) :=
  if m.use_azure then
    if remoteFault then
      (m.get_local localFault filename folder).map (fun r => (r, m))
    else
      match lookupEntry (folder, filename) m.remote.blobs with
      | some b => Except.ok (some b, m)
      | none => (m.get_local localFault filename folder).map (fun r => (r, m))
  else
    (m.get_local localFault filename folder).map (fun r => (r, m))

/-- Embedding of `get_file_path`: pure locator — the blob URL when `use_azure`, the
composed local path otherwise.  The manager state is returned unchanged. -/
def get_file_path (m : AzureStorageManager) (filename folder : String) :
    String × AzureStorageManager :=
  if m.use_azure then
    (blobUrl m.storage_account_name folder filename, m)
  else
    (osPathJoin folder filename, m)

/-- Embedding of `delete_file`: remote deletion when `use_azure` (any exception, including
blob-not-found, is caught and yields `false` with no local fallback);
otherwise `os.remove` with every exception caught and turned into `false`. -/
def delete_file (m : AzureStorageManager) (remoteFault localFault : Bool)
    (filename folder : String) : Bool × AzureStorageManager :=
  if m.use_azure then
    if remoteFault then
      (false, m)
    else
      match lookupEntry (folder, filename) m.remote.blobs with
      | some _ =>
        (true, { m with remote :=
          { m.remote with blobs := removeEntry (folder, filename) m.remote.blobs } })
      | none => (false, m)
  else
    if localFault then
      (false, m)
    else
      match lookupEntry (osPathJoin folder filename) m.fs.files with
      | some _ =>
        (true, { m with fs :=
          { m.fs with files := removeEntry (osPathJoin folder filename) m.fs.files } })
      | none => (false, m)

end AzureStorageManager

/-- Configuration read from the environment in `__init__`. -/
structure StorageConfig where
  storage_account_name : Option String
  storage_connection_string : Option String
  use_managed_identity : Bool
deriving Repr, DecidableEq

/-- Whether `_initialize_azure_storage` reaches one of the two client
construction branches (managed identity with an account name, or a
connection string) rather than the credentials-warning branch. -/
def StorageConfig.attemptsClient (cfg : StorageConfig) : Bool :=
  (cfg.use_managed_identity && cfg.storage_account_name.isSome)
    || cfg.storage_connection_string.isSome

namespace AzureStorageManager

/-- Embedding of `_ensure_containers`: for each of `uploads` and `generated`, try to
create the container if absent; any exception of one iteration (modelled by
membership in `containerFaults`) is caught, logged and swallowed inside the
loop. -/
def ensure_containers (m : AzureStorageManager) (containerFaults : List String) :
    AzureStorageManager :=
  let r1 := m.remote.ensureContainer containerFaults "uploads"
  let r2 := r1.ensureContainer containerFaults "generated"
  { m with remote := r2 }

/-- Embedding of `_initialize_azure_storage`: build the remote client (managed identity or
connection string; `clientFault` resolves whether construction raises), run
`_ensure_containers`, then set `use_azure := true`.  Exceptions of client
construction are caught by the outer handler, which ensures the local
directories and leaves `use_azure = false`; the credentials-warning branch
also ensures local directories and returns early. -/
def initialize_azure_storage (m : AzureStorageManager) (cfg : StorageConfig)
    (clientFault : Bool) (containerFaults : List String) : AzureStorageManager :=
  if cfg.use_managed_identity && cfg.storage_account_name.isSome then
    if clientFault then
      m.ensure_local_directories
    else
      { (m.ensure_containers containerFaults) with use_azure := true }
  else if cfg.storage_connection_string.isSome then
    if clientFault then
      m.ensure_local_directories
    else
      { (m.ensure_containers containerFaults) with use_azure := true }
  else
    m.ensure_local_directories

/-- Embedding of `__init__`: start with `use_azure = false`, then initialize Azure when
either credential is configured, else ensure the local directories.
`remote0`/`fs0` are the pre-existing backend contents. -/
def construct (cfg : StorageConfig) (clientFault : Bool)
    (containerFaults : List String) (remote0 : RemoteStore) (fs0 : LocalFS) :
    AzureStorageManager :=
  let m0 : AzureStorageManager :=
    { use_azure := false
      storage_account_name := cfg.storage_account_name.getD ""
      remote := remote0
      fs := fs0 }
  if cfg.storage_account_name.isSome || cfg.storage_connection_string.isSome then
    m0.initialize_azure_storage cfg clientFault containerFaults
  else
    m0.ensure_local_directories

end AzureStorageManager

/-! ## Helper lemmas -/

theorem lookupEntry_setEntry {α β : Type} [DecidableEq α] (k : α) (v : β)
    (l : List (α × β)) : lookupEntry k (setEntry k v l) = some v := by
  simp [setEntry, lookupEntry]

theorem map_pair_ok {α : Type} (e : Except PyError α)
    (m m' : AzureStorageManager) (r : α)
    (h : e.map (fun x => (x, m)) = Except.ok (r, m')) : m' = m := by
  cases e with
  | error _ => simp [Except.map] at h
  | ok v =>
    simp only [Except.map, Except.ok.injEq, Prod.mk.injEq] at h
    exact h.2.symm

theorem makedirs_mem_self (fs : LocalFS) (d : String) :
    d ∈ (fs.makedirs d).dirs := by
  unfold LocalFS.makedirs
  split
  · assumption
  · exact List.mem_cons_self _ _

theorem makedirs_mem_mono (fs : LocalFS) (d x : String) (h : x ∈ fs.dirs) :
    x ∈ (fs.makedirs d).dirs := by
  unfold LocalFS.makedirs
  split
  · exact h
  · exact List.mem_cons_of_mem _ h

theorem ensure_local_directories_mem (m : AzureStorageManager) :
    "uploads" ∈ m.ensure_local_directories.fs.dirs ∧
    "generated" ∈ m.ensure_local_directories.fs.dirs := by
  unfold AzureStorageManager.ensure_local_directories
  exact ⟨makedirs_mem_mono _ _ _ (makedirs_mem_self _ _), makedirs_mem_self _ _⟩

/-! ## Claim theorems -/

/-- Claim C5: when the manager is in remote mode and the remote deletion
raises, `delete_file` returns `false`, no local deletion is attempted (the
whole state, local files included, is unchanged), and the stored object
remains retrievable: `get_file` afterwards behaves exactly as before. -/
theorem C5_delete_asymmetry (m : AzureStorageManager) (filename folder : String)
    (lf gf glf : Bool) (hra : m.use_azure = true) :
    m.delete_file true lf filename folder = (false, m) ∧
    ((m.delete_file true lf filename folder).2.get_file gf glf filename folder
      = m.get_file gf glf filename folder) := by
  have h : m.delete_file true lf filename folder = (false, m) := by
    unfold AzureStorageManager.delete_file
    simp [hra]
  exact ⟨h, by rw [h]⟩

/-- Claim C5 witness: concrete remote-mode manager holding one blob and one
local file; the failing remote delete returns `false` and changes nothing. -/
theorem C5_delete_asymmetry_witness :
    (⟨true, "acct", ⟨["uploads", "generated"], [(("uploads", "a.txt"), [7])]⟩,
        ⟨["uploads", "generated"], [("uploads/a.txt", [7])]⟩⟩ :
      AzureStorageManager).delete_file true false "a.txt" "uploads"
      = (false, ⟨true, "acct", ⟨["uploads", "generated"],
          [(("uploads", "a.txt"), [7])]⟩,
          ⟨["uploads", "generated"], [("uploads/a.txt", [7])]⟩⟩) :=
  (C5_delete_asymmetry _ "a.txt" "uploads" false false false rfl).1

/-- Claim C6: `get_file` on a never-written `(folder, filename)` pair — the
composed local path is absent and the remote store has no such blob — returns
the explicit absent value `none` and does not raise, in local mode as well as
in remote mode (where the remote miss or fault falls through to the local
read). -/
theorem C6_not_found (m : AzureStorageManager) (filename folder : String)
    (gf : Bool)
    (hlocal : lookupEntry (osPathJoin folder filename) m.fs.files
      = (none : Option Bytes))
    (hremote : lookupEntry (folder, filename) m.remote.blobs
      = (none : Option Bytes)) :
    m.get_file gf false filename folder = Except.ok (none, m) := by
  unfold AzureStorageManager.get_file AzureStorageManager.get_local
  cases h : m.use_azure <;> cases gf <;> simp [h, hlocal, hremote, Except.map]

/-- Claim C6 witness: an empty local-mode manager returns `none` for a file
that was never written. -/
theorem C6_not_found_witness :
    (⟨false, "", ⟨[], []⟩, ⟨["uploads", "generated"], []⟩⟩ :
      AzureStorageManager).get_file true false "missing.txt" "uploads"
      = Except.ok (none, ⟨false, "", ⟨[], []⟩, ⟨["uploads", "generated"], []⟩⟩) :=
  C6_not_found _ "missing.txt" "uploads" true rfl rfl

/-- Claim C7 counterexample: in local mode, a local `OSError` other than
`FileNotFoundError` (permission denied, disk fault) raised while reading is
NOT converted into `none` — `get_file` propagates it as an exception. -/
theorem C7_counterexample :
    (⟨false, "", ⟨[], []⟩, ⟨["uploads", "generated"], []⟩⟩ :
      AzureStorageManager).get_file false true "a.txt" "uploads"
      = Except.error PyError.osError := rfl

/-- Claim C7 (amended): `_get_local` converts only the file-not-found case
into the explicit absent result `none`; every other local I/O error
(permission, disk fault, modelled by the injected fault) propagates as an
exception to the caller. -/
theorem C7_amended_get_local_errors (m : AzureStorageManager)
    (filename folder : String) :
    m.get_local true filename folder = Except.error PyError.osError ∧
    (lookupEntry (osPathJoin folder filename) m.fs.files = (none : Option Bytes) →
      m.get_local false filename folder = Except.ok none) := by
  constructor
  · unfold AzureStorageManager.get_local
    simp
  · intro h
    unfold AzureStorageManager.get_local
    simp [h]

/-- Claim C7 witness: on a concrete empty filesystem, a faulting read
propagates the error while a plain missing file yields `none`. -/
theorem C7_amended_witness :
    ((⟨false, "", ⟨[], []⟩, ⟨["uploads"], []⟩⟩ :
        AzureStorageManager).get_local true "a.txt" "uploads"
      = Except.error PyError.osError) ∧
    ((⟨false, "", ⟨[], []⟩, ⟨["uploads"], []⟩⟩ :
        AzureStorageManager).get_local false "a.txt" "uploads"
      = Except.ok none) :=
  ⟨(C7_amended_get_local_errors ⟨false, "", ⟨[], []⟩, ⟨["uploads"], []⟩⟩
      "a.txt" "uploads").1,
   (C7_amended_get_local_errors ⟨false, "", ⟨[], []⟩, ⟨["uploads"], []⟩⟩
      "a.txt" "uploads").2 rfl⟩

/-- Claim C10: in local mode, the locator returned by a successful
`save_file` equals the string returned by the pure `get_file_path` for the
same `(folder, filename)` pair. -/
theorem C10_locator_agreement (m m' : AzureStorageManager) (b : Bytes)
    (filename folder loc : String) (rf : Bool)
    (hlocal : m.use_azure = false)
    (hsave : m.save_file rf b filename folder = Except.ok (loc, m')) :
    (m.get_file_path filename folder).1 = loc := by
  unfold AzureStorageManager.save_file AzureStorageManager.save_local at hsave
  rw [hlocal] at hsave
  simp only [Bool.false_eq_true, if_false] at hsave
  split at hsave
  · simp only [Except.ok.injEq, Prod.mk.injEq] at hsave
    unfold AzureStorageManager.get_file_path
    rw [hlocal]
    simpa using hsave.1
  · simp at hsave

/-- Claim C10 witness: concrete local-mode save of `[7]` to
`uploads/a.txt`; the pure locator agrees with the returned path. -/
theorem C10_locator_agreement_witness :
    ((⟨false, "", ⟨[], []⟩, ⟨["uploads"], []⟩⟩ :
      AzureStorageManager).get_file_path "a.txt" "uploads").1 = "uploads/a.txt" :=
  C10_locator_agreement ⟨false, "", ⟨[], []⟩, ⟨["uploads"], []⟩⟩
    ⟨false, "", ⟨[], []⟩, ⟨["uploads"], [("uploads/a.txt", [7])]⟩⟩
    [7] "a.txt" "uploads" "uploads/a.txt" false rfl rfl

/-- Claim C2 counterexample: remote mode reached through a successful remote
initialization, so `_ensure_local_directories` never ran and the local
`uploads` directory does not exist.  The remote upload faults, the fallback
`_save_local` raises `FileNotFoundError`, and `save_file` propagates an
exception instead of writing the bytes locally and returning the local
path, refuting the claim's unconditional fallback write. -/
theorem C2_counterexample :
    (⟨true, "acct", ⟨["uploads", "generated"],
        [(("generated", "old.pdf"), [5])]⟩, ⟨[], []⟩⟩ :
      AzureStorageManager).save_file true [3, 1, 4] "cv.pdf" "uploads"
      = Except.error PyError.fileNotFoundError := rfl

/-- Claim C2 (amended): in remote mode, when the remote upload inside
`save_file` raises, the remote exception is not propagated: the write is
retried against the local backend, and provided the local directory for
`folder` exists, the same bytes are written to the local path composed from
`(folder, filename)`, that local path is returned as the locator, and a
subsequent local read at the same pair returns the same bytes.  (When the
directory is missing the local retry itself raises `FileNotFoundError`, per
the counterexample.) -/
theorem C2_fallback_transparency (m : AzureStorageManager) (b : Bytes)
    (filename folder : String)
    (hra : m.use_azure = true) (hdir : folder ∈ m.fs.dirs) :
    ∃ m', m.save_file true b filename folder
        = Except.ok (osPathJoin folder filename, m') ∧
      m'.get_local false filename folder = Except.ok (some b) := by
  refine ⟨{ m with fs :=
    { m.fs with files := setEntry (osPathJoin folder filename) b m.fs.files } },
    ?_, ?_⟩
  · unfold AzureStorageManager.save_file AzureStorageManager.save_local
    simp [hra, hdir]
  · unfold AzureStorageManager.get_local
    simp [lookupEntry_setEntry]

/-- Claim C2 witness: concrete remote-mode manager whose upload faults; the
save lands at `uploads/cv.pdf` and can be read back locally. -/
theorem C2_fallback_transparency_witness :
    ∃ m', (⟨true, "acct", ⟨["uploads", "generated"], []⟩,
        ⟨["uploads", "generated"], []⟩⟩ :
      AzureStorageManager).save_file true [3, 1, 4] "cv.pdf" "uploads"
        = Except.ok (osPathJoin "uploads" "cv.pdf", m') ∧
      m'.get_local false "cv.pdf" "uploads" = Except.ok (some [3, 1, 4]) :=
  C2_fallback_transparency ⟨true, "acct", ⟨["uploads", "generated"], []⟩,
    ⟨["uploads", "generated"], []⟩⟩ [3, 1, 4] "cv.pdf" "uploads" rfl (by decide)

/-- Claim C4 counterexample: `"secret"` is outside the known bucket set, yet
in local mode `save_file` into it raises no error — with the directory
present it silently writes to `secret/x.txt` and returns that path. -/
theorem C4_counterexample :
    ("secret" ∉ (["uploads", "generated"] : List String)) ∧
    (⟨false, "", ⟨[], []⟩, ⟨["uploads", "generated", "secret"], []⟩⟩ :
      AzureStorageManager).save_file false [9] "x.txt" "secret"
      = Except.ok ("secret/x.txt",
        ⟨false, "", ⟨[], []⟩, ⟨["uploads", "generated", "secret"],
          [("secret/x.txt", [9])]⟩⟩) :=
  ⟨by decide, rfl⟩

/-- Claim C4 (amended): `save_file` and `get_file` perform no validation of
the folder name at all.  In local mode, for ANY folder string — inside or
outside the known set — save writes silently to the composed path when the
directory exists (returning that path), raises `FileNotFoundError` only as a
side effect of the directory being absent, and a get at the same pair
returns whatever was stored there. -/
theorem C4_no_folder_validation (m : AzureStorageManager) (b : Bytes)
    (filename folder : String) (hlocal : m.use_azure = false) :
    (folder ∈ m.fs.dirs →
      ∃ m', m.save_file false b filename folder
          = Except.ok (osPathJoin folder filename, m') ∧
        (m'.get_file false false filename folder).map Prod.fst
          = Except.ok (some b)) ∧
    (folder ∉ m.fs.dirs →
      m.save_file false b filename folder
        = Except.error PyError.fileNotFoundError) := by
  constructor
  · intro hdir
    refine ⟨{ m with fs :=
      { m.fs with files := setEntry (osPathJoin folder filename) b m.fs.files } },
      ?_, ?_⟩
    · unfold AzureStorageManager.save_file AzureStorageManager.save_local
      simp [hlocal, hdir]
    · unfold AzureStorageManager.get_file AzureStorageManager.get_local
      simp [hlocal, lookupEntry_setEntry, Except.map]
  · intro hdir
    unfold AzureStorageManager.save_file AzureStorageManager.save_local
    simp [hlocal, hdir]

/-- Claim C4 witness: the unknown folder `"secret"` with its directory
present is written to without any error. -/
theorem C4_no_folder_validation_witness :
    ∃ m', (⟨false, "", ⟨[], []⟩, ⟨["secret"], []⟩⟩ :
        AzureStorageManager).save_file false [9] "x.txt" "secret"
        = Except.ok (osPathJoin "secret" "x.txt", m') ∧
      (m'.get_file false false "x.txt" "secret").map Prod.fst
        = Except.ok (some [9]) :=
  (C4_no_folder_validation ⟨false, "", ⟨[], []⟩, ⟨["secret"], []⟩⟩
    [9] "x.txt" "secret" rfl).1 (by decide)

/-- Claim C8 counterexample: remote mode with no local directories (the
local-mode initializer never ran); the remote upload faults, `save_file`
falls back to the local write, and because `_save_local` creates no parent
directory the call raises `FileNotFoundError` instead of succeeding. -/
theorem C8_counterexample :
    (⟨true, "acct", ⟨["uploads", "generated"], []⟩, ⟨[], []⟩⟩ :
      AzureStorageManager).save_file true [1] "a.txt" "uploads"
      = Except.error PyError.fileNotFoundError := rfl

/-- Claim C8 (amended): when `save_file` uses the local backend (local mode,
or remote-fault fallback), it composes the local path from folder and
filename but creates no missing parent directory: the write returns the
composed path when the target directory already exists and raises
`FileNotFoundError` when it does not. -/
theorem C8_no_makedirs_on_save (m : AzureStorageManager) (b : Bytes)
    (filename folder : String) (sf : Bool)
    (hfb : m.use_azure = false ∨ sf = true) :
    (folder ∈ m.fs.dirs →
      (m.save_file sf b filename folder).map Prod.fst
        = Except.ok (osPathJoin folder filename)) ∧
    (folder ∉ m.fs.dirs →
      m.save_file sf b filename folder
        = Except.error PyError.fileNotFoundError) := by
  have hloc : m.save_file sf b filename folder
      = m.save_local b filename folder := by
    unfold AzureStorageManager.save_file
    rcases hfb with h | h
    · simp [h]
    · subst h
      cases hUA : m.use_azure <;> simp [hUA]
  rw [hloc]
  constructor
  · intro hdir
    unfold AzureStorageManager.save_local
    simp [hdir, Except.map]
  · intro hdir
    unfold AzureStorageManager.save_local
    simp [hdir]

/-- Claim C8 witness: with `uploads/` present the fallback write of `[1]`
succeeds at the composed path; with no directories at all it raises. -/
theorem C8_no_makedirs_on_save_witness :
    (((⟨true, "acct", ⟨["uploads", "generated"], []⟩, ⟨["uploads"], []⟩⟩ :
        AzureStorageManager).save_file true [1] "a.txt" "uploads").map Prod.fst
      = Except.ok (osPathJoin "uploads" "a.txt")) ∧
    ((⟨true, "acct", ⟨["uploads", "generated"], []⟩, ⟨[], []⟩⟩ :
        AzureStorageManager).save_file true [1] "a.txt" "uploads"
      = Except.error PyError.fileNotFoundError) :=
  ⟨(C8_no_makedirs_on_save ⟨true, "acct", ⟨["uploads", "generated"], []⟩,
      ⟨["uploads"], []⟩⟩ [1] "a.txt" "uploads" true (Or.inr rfl)).1 (by decide),
   (C8_no_makedirs_on_save ⟨true, "acct", ⟨["uploads", "generated"], []⟩,
      ⟨[], []⟩⟩ [1] "a.txt" "uploads" true (Or.inr rfl)).2 (by decide)⟩

/-- Claim C9: `use_azure` is decided during construction and never mutated
by any operation: every state reachable from a `save_file`, `get_file`,
`delete_file` or `get_file_path` call — successful or fallen back — carries
the same `use_azure` value as before the call. -/
theorem C9_flag_never_mutated (m : AzureStorageManager) (b : Bytes)
    (filename folder : String) (rf lf : Bool) :
    (∀ loc m', m.save_file rf b filename folder = Except.ok (loc, m') →
      m'.use_azure = m.use_azure) ∧
    (∀ r m', m.get_file rf lf filename folder = Except.ok (r, m') →
      m'.use_azure = m.use_azure) ∧
    ((m.delete_file rf lf filename folder).2.use_azure = m.use_azure) ∧
    ((m.get_file_path filename folder).2.use_azure = m.use_azure) := by
  refine ⟨?_, ?_, ?_, ?_⟩
  · intro loc m' h
    unfold AzureStorageManager.save_file AzureStorageManager.save_local at h
    repeat' split at h
    all_goals
      first
        | (simp only [Except.ok.injEq, Prod.mk.injEq] at h
           obtain ⟨h1, h2⟩ := h
           subst h2
           rfl)
        | simp_all
  · intro r m' h
    unfold AzureStorageManager.get_file at h
    repeat' split at h
    all_goals
      first
        | (simp only [Except.ok.injEq, Prod.mk.injEq] at h
           obtain ⟨h1, h2⟩ := h
           subst h2
           rfl)
        | (have hm := map_pair_ok _ _ _ _ h
           subst hm
           rfl)
  · unfold AzureStorageManager.delete_file
    repeat' split
    all_goals rfl
  · unfold AzureStorageManager.get_file_path
    split <;> rfl

/-- Claim C9 witness: a concrete local-mode save leaves `use_azure` exactly
as it was before the call. -/
theorem C9_flag_never_mutated_witness :
    (⟨false, "", ⟨[], []⟩, ⟨["uploads"],
        [(osPathJoin "uploads" "a.txt", [7])]⟩⟩ :
      AzureStorageManager).use_azure
      = (⟨false, "", ⟨[], []⟩, ⟨["uploads"], []⟩⟩ :
        AzureStorageManager).use_azure :=
  (C9_flag_never_mutated ⟨false, "", ⟨[], []⟩, ⟨["uploads"], []⟩⟩
      [7] "a.txt" "uploads" false false).1
    (osPathJoin "uploads" "a.txt") _ rfl

/-- Claim C1 counterexample: remote mode with a stale blob `[0]` already
stored under `("uploads", "a.txt")`.  A save of `[1]` whose remote upload
faults succeeds by writing locally, yet the immediately following fault-free
`get_file` downloads the stale remote blob `[0]`, not the saved bytes
`[1]`. -/
theorem C1_counterexample :
    ((⟨true, "acct", ⟨["uploads", "generated"], [(("uploads", "a.txt"), [0])]⟩,
        ⟨["uploads", "generated"], []⟩⟩ :
      AzureStorageManager).save_file true [1] "a.txt" "uploads").bind
      (fun p => (p.2.get_file false false "a.txt" "uploads").map Prod.fst)
      = Except.ok (some ([0] : Bytes)) ∧ ([0] : Bytes) ≠ [1] :=
  ⟨rfl, by decide⟩

/-- Claim C1 (amended): `get_file` immediately after a successful
`save_file` of bytes `b` at `(folder, filename)` returns exactly `b`, in
either mode and whichever backend performed the write, provided that the get
suffers no local I/O fault, that when the write went to the remote backend
the get's remote download does not fault, and that when the save fell back
to the local backend in remote mode the remote store holds no object under
the same `(folder, filename)` (a stale remote object would shadow the local
fallback write). -/
theorem C1_round_trip_amended (m m' : AzureStorageManager) (b : Bytes)
    (filename folder loc : String) (sf gf : Bool)
    (hsave : m.save_file sf b filename folder = Except.ok (loc, m'))
    (hgf : m.use_azure = true → sf = false → gf = false)
    (hstale : m.use_azure = true → sf = true →
      lookupEntry (folder, filename) m.remote.blobs = (none : Option Bytes)) :
    m'.get_file gf false filename folder = Except.ok (some b, m') := by
  cases hUA : m.use_azure with
  | false =>
    unfold AzureStorageManager.save_file AzureStorageManager.save_local at hsave
    rw [hUA] at hsave
    simp only [Bool.false_eq_true, if_false] at hsave
    split at hsave
    · simp only [Except.ok.injEq, Prod.mk.injEq] at hsave
      obtain ⟨hloc, hm⟩ := hsave
      subst hm
      unfold AzureStorageManager.get_file AzureStorageManager.get_local
      simp [hUA, lookupEntry_setEntry, Except.map]
    · simp at hsave
  | true =>
    cases sf with
    | false =>
      have hgf' := hgf hUA rfl
      subst hgf'
      unfold AzureStorageManager.save_file at hsave
      rw [hUA] at hsave
      simp only [eq_self_iff_true, if_true, Bool.false_eq_true, if_false,
        Except.ok.injEq, Prod.mk.injEq] at hsave
      obtain ⟨hloc, hm⟩ := hsave
      subst hm
      unfold AzureStorageManager.get_file
      simp [hUA, lookupEntry_setEntry]
    | true =>
      have hst := hstale hUA rfl
      unfold AzureStorageManager.save_file AzureStorageManager.save_local at hsave
      rw [hUA] at hsave
      simp only [eq_self_iff_true, if_true] at hsave
      split at hsave
      · simp only [Except.ok.injEq, Prod.mk.injEq] at hsave
        obtain ⟨hloc, hm⟩ := hsave
        subst hm
        unfold AzureStorageManager.get_file AzureStorageManager.get_local
        cases gf <;> simp [hUA, hst, lookupEntry_setEntry, Except.map]
      · simp at hsave

/-- Claim C1 witness: local-mode save of `[7]` to `uploads/a.txt` followed
by a get returns `[7]`. -/
theorem C1_round_trip_amended_witness :
    (⟨false, "", ⟨[], []⟩, ⟨["uploads"], [("uploads/a.txt", [7])]⟩⟩ :
      AzureStorageManager).get_file false false "a.txt" "uploads"
      = Except.ok (some [7],
        ⟨false, "", ⟨[], []⟩, ⟨["uploads"], [("uploads/a.txt", [7])]⟩⟩) :=
  C1_round_trip_amended ⟨false, "", ⟨[], []⟩, ⟨["uploads"], []⟩⟩
    ⟨false, "", ⟨[], []⟩, ⟨["uploads"], [("uploads/a.txt", [7])]⟩⟩
    [7] "a.txt" "uploads" "uploads/a.txt" false false rfl
    (fun _ _ => rfl) (by decide)

theorem construct_clientFault_eq (cfg : StorageConfig) (cf : List String)
    (remote0 : RemoteStore) (fs0 : LocalFS)
    (hclient : cfg.attemptsClient = true) :
    AzureStorageManager.construct cfg true cf remote0 fs0
      = AzureStorageManager.ensure_local_directories
          ⟨false, cfg.storage_account_name.getD "", remote0, fs0⟩ := by
  unfold StorageConfig.attemptsClient at hclient
  unfold AzureStorageManager.construct AzureStorageManager.initialize_azure_storage
  cases h1 : (cfg.use_managed_identity && cfg.storage_account_name.isSome) with
  | true =>
    have hacc : cfg.storage_account_name.isSome = true := by
      have h := h1
      rw [Bool.and_eq_true] at h
      exact h.2
    simp [h1, hacc]
  | false =>
    rw [h1] at hclient
    simp only [Bool.false_or] at hclient
    simp [h1, hclient]

theorem construct_noFault_use_azure (cfg : StorageConfig) (cf : List String)
    (remote0 : RemoteStore) (fs0 : LocalFS)
    (hclient : cfg.attemptsClient = true) :
    (AzureStorageManager.construct cfg false cf remote0 fs0).use_azure = true := by
  unfold StorageConfig.attemptsClient at hclient
  unfold AzureStorageManager.construct AzureStorageManager.initialize_azure_storage
  cases h1 : (cfg.use_managed_identity && cfg.storage_account_name.isSome) with
  | true =>
    have hacc : cfg.storage_account_name.isSome = true := by
      have h := h1
      rw [Bool.and_eq_true] at h
      exact h.2
    simp [h1, hacc]
  | false =>
    rw [h1] at hclient
    simp only [Bool.false_or] at hclient
    simp [h1, hclient]

/-- Claim C3 counterexample: a connection-string configuration whose client
construction succeeds but whose `uploads` container setup raises.  The
exception is swallowed inside the `_ensure_containers` loop, so construction
still ends with `use_azure = true`, not the claimed fallback to `false`. -/
theorem C3_counterexample :
    (AzureStorageManager.construct ⟨none, some "cs", false⟩ false ["uploads"]
      ⟨[], []⟩ ⟨[], []⟩).use_azure = true := rfl

/-- Claim C3 (amended): an exception during remote CLIENT CONSTRUCTION is
logged and falls back to local mode — the local directories are ensured and
`use_azure` ends up `false`.  An exception while ensuring a container,
however, is caught and swallowed per container inside `_ensure_containers`,
so construction still sets `use_azure = true` regardless of which container
setups failed. -/
theorem C3_init_fallback_amended (cfg : StorageConfig) (cf : List String)
    (remote0 : RemoteStore) (fs0 : LocalFS)
    (hclient : cfg.attemptsClient = true) :
    ((AzureStorageManager.construct cfg true cf remote0 fs0).use_azure = false ∧
      "uploads" ∈ (AzureStorageManager.construct cfg true cf remote0 fs0).fs.dirs ∧
      "generated" ∈
        (AzureStorageManager.construct cfg true cf remote0 fs0).fs.dirs) ∧
    (AzureStorageManager.construct cfg false cf remote0 fs0).use_azure = true := by
  refine ⟨⟨?_, ?_, ?_⟩, construct_noFault_use_azure cfg cf remote0 fs0 hclient⟩
  · rw [construct_clientFault_eq cfg cf remote0 fs0 hclient]
    rfl
  · rw [construct_clientFault_eq cfg cf remote0 fs0 hclient]
    exact (ensure_local_directories_mem _).1
  · rw [construct_clientFault_eq cfg cf remote0 fs0 hclient]
    exact (ensure_local_directories_mem _).2

/-- Claim C3 witness: with a connection string configured, a faulting client
construction ends in local mode with both directories present, while a
fault-free construction (even with a faulting container setup) ends in
remote mode. -/
theorem C3_init_fallback_amended_witness :
    ((AzureStorageManager.construct ⟨none, some "cs", false⟩ true ["uploads"]
        ⟨[], []⟩ ⟨[], []⟩).use_azure = false ∧
      "uploads" ∈ (AzureStorageManager.construct ⟨none, some "cs", false⟩ true
        ["uploads"] ⟨[], []⟩ ⟨[], []⟩).fs.dirs ∧
      "generated" ∈ (AzureStorageManager.construct ⟨none, some "cs", false⟩ true
        ["uploads"] ⟨[], []⟩ ⟨[], []⟩).fs.dirs) ∧
    (AzureStorageManager.construct ⟨none, some "cs", false⟩ false ["uploads"]
      ⟨[], []⟩ ⟨[], []⟩).use_azure = true :=
  C3_init_fallback_amended ⟨none, some "cs", false⟩ ["uploads"] ⟨[], []⟩
    ⟨[], []⟩ rfl
